import Mathlib

/-!
Verification of the PiOS prayer-times application (`src/app.py`) against its
natural-language specification.

The Python source is shallowly embedded below.  Times of day are the
"HH:MM" strings the program manipulates; the prayer-time table is the
association list of (prayer name, time string) pairs that the Python dict
`self.pray_times` holds (insertion-ordered, unique keys); the transient
`triggered` dict of the monitor thread is a function `String → Option String`.
The body of one iteration of the `prayer_monitor` polling loop is split into
two structurally recursive functions over the same traversal of the table:
`monitorPlays` (the prayers for which `play_adhaan` is invoked during the
poll) and `monitorTrig` (the `triggered` mapping after the poll).
-/

/-- The five obligatory prayers singled out by the monitor loop
(`if prayer not in ("fajr", "dhuhr", "asr", "maghrib", "isha"): continue`). -/
def fivePrayers : List String := ["fajr", "dhuhr", "asr", "maghrib", "isha"]

/-- Prayers for which `play_adhaan` is invoked during one poll of
`prayer_monitor` at current minute `now`: an entry fires when the prayer is
one of the five, `now_str == time_str`, and `triggered.get(prayer) != now_str`;
playback itself happens only when the prayer is enabled and `get_audio_file()`
returned a file (`audio.isSome`). -/
def monitorPlays (now : String) (audio : Option String) (enabled : String → Bool) :
    List (String × String) → (String → Option String) → List String
  | [], _ => []
  | (prayer, timeStr) :: rest, trig =>
    if prayer ∈ fivePrayers ∧ now = timeStr ∧ trig prayer ≠ some now then
      (if enabled prayer = true ∧ audio.isSome = true then [prayer] else []) ++
        monitorPlays now audio enabled rest (fun q => if q = prayer then some now else trig q)
    else
      monitorPlays now audio enabled rest trig

/-- The `triggered` mapping after one poll of `prayer_monitor` at current
minute `now`: whenever an entry fires, `triggered[prayer] = now_str` is
recorded unconditionally (inside the outer `if`, outside the enabled check). -/
def monitorTrig (now : String) :
    List (String × String) → (String → Option String) → (String → Option String)
  | [], trig => trig
  | (prayer, timeStr) :: rest, trig =>
    if prayer ∈ fivePrayers ∧ now = timeStr ∧ trig prayer ≠ some now then
      monitorTrig now rest (fun q => if q = prayer then some now else trig q)
    else
      monitorTrig now rest trig

/-- Value of a single digit character, else `none` (ASCII digits, as matched
by the `%H`/`%M` patterns of `datetime.strptime`). -/
def digitVal (c : Char) : Option Nat :=
  if c.isDigit then some (c.toNat - 48) else none

/-- Numeric value of a 1- or 2-digit character group, as accepted by the
`strptime` field patterns (`%H`, `%M` each match one or two digits). -/
def digitGroup : List Char → Option Nat
  | [c] => digitVal c
  | [c, d] =>
    match digitVal c, digitVal d with
    | some x, some y => some (10 * x + y)
    | _, _ => none
  | _ => none

/-- Split a character list at its first colon; `none` when no colon occurs. -/
def breakColon : List Char → Option (List Char × List Char)
  | [] => none
  | c :: rest =>
    if c = ':' then some ([], rest)
    else
      match breakColon rest with
      | some (pre, post) => some (c :: pre, post)
      | none => none

/-- Embedding of `datetime.strptime(s, "%H:%M")`: succeeds exactly on strings
of the form `H:M` with 1- or 2-digit fields, hour at most 23 and minute at
most 59, nothing before or after; returns the parsed (hour, minute).
Divergence note: Python's `\d` also matches non-ASCII unicode digits, which
this model (like the rest of the development) does not treat. -/
def parseHHMM (s : String) : Option (Nat × Nat) :=
  match breakColon s.toList with
  | none => none
  | some (hs, ms) =>
    match digitGroup hs, digitGroup ms with
    | some hv, some mv => if hv ≤ 23 ∧ mv ≤ 59 then some (hv, mv) else none
    | some _, none => none
    | none, _ => none

/-- Render a natural number below 100 as two digits, as `strftime`'s
zero-padded fields do. -/
def twoDigits (n : Nat) : String :=
  (if n < 10 then "0" else "") ++ toString n

/-- Embedding of `strftime("%H:%M")` on a datetime lying `totalSec` seconds
after today's midnight. -/
def renderClock (totalSec : Nat) : String :=
  twoDigits (totalSec / 3600 % 24) ++ ":" ++ twoDigits (totalSec / 60 % 60)

/-- Embedding of `convert_to_12h`: parse with `strptime("%H:%M")` and render
with `strftime("%I:%M %p")`; on a parse error the input is returned
unchanged. -/
def convert_to_12h (time_str : String) : String :=
  match parseHHMM time_str with
  | some (h, m) =>
    twoDigits ((h + 11) % 12 + 1) ++ ":" ++ twoDigits m ++ " " ++
      (if h < 12 then "AM" else "PM")
  | none => time_str

/-- Seconds after today's midnight of today's sunset, parsed as (sh, sm):
the code's `sunset_dt = datetime.combine(today.date(), strptime(...).time())`. -/
def sunsetAbsSec (sh sm : Nat) : Nat := 3600 * sh + 60 * sm

/-- Seconds after today's midnight of tomorrow's Fajr, parsed as (fh, fm):
the code's `tomorrow_fajr_dt = datetime.combine(tomorrow.date(), ...)`. -/
def nextFajrAbsSec (fh fm : Nat) : Nat := 86400 + 3600 * fh + 60 * fm

/-- Seconds after today's midnight of the computed "last third of the night":
`last_third_dt = sunset_dt + timedelta(seconds=(2 / 3) * night_duration)`.
Both endpoints are whole minutes, so `night_duration = 60 * k` seconds and the
float product `(2 / 3) * night_duration` rounds (inside `timedelta`, at
microsecond resolution) to exactly `40 * k` seconds, which `2 * d / 3` in
natural arithmetic reproduces exactly. -/
def lastThirdAbsSec (sh sm fh fm : Nat) : Nat :=
  sunsetAbsSec sh sm + 2 * (nextFajrAbsSec fh fm - sunsetAbsSec sh sm) / 3

/-- The "last third" stage of `update_prayer_times`, given the sunset string
of today's table and the fajr string of tomorrow's table: both are parsed
with `strptime("%H:%M")` (a failure raises, caught by the surrounding
`except`) and the result is rendered back with `strftime("%H:%M")`. -/
def computeLastThird (sunsetStr fajrStr : String) : Option String :=
  match parseHHMM sunsetStr, parseHHMM fajrStr with
  | some (sh, sm), some (fh, fm) =>
    some (renderClock (lastThirdAbsSec sh sm fh fm))
  | some _, none => none
  | none, _ => none

/-- Lookup with default, embedding Python's `dict.get(key, default)` on the
insertion-ordered association list. -/
def lookupD (tbl : List (String × String)) (k dflt : String) : String :=
  match tbl.find? (fun kv => kv.1 == k) with
  | some kv => kv.2
  | none => dflt

/-- Embedding of Python's `dict[key] = value` on the association list:
replace in place when the key exists, otherwise append. -/
def setKey (tbl : List (String × String)) (k v : String) : List (String × String) :=
  if tbl.any (fun kv => kv.1 == k) then
    tbl.map (fun kv => if kv.1 == k then (k, v) else kv)
  else
    tbl ++ [(k, v)]

/-- Embedding of `AdhaanApp.update_prayer_times`.  The two calls to the
external `pt.getTimes` are abstracted as their outcomes: `Except.ok tbl` when
the call returns table `tbl`, `Except.error ()` when it raises.  The first
`try` sets `self.pray_times` to the result or, on exception, to `{}`.  The
second `try` reads `self.pray_times.get("sunset", "00:00")` and tomorrow's
`get("fajr", "00:00")`, computes the last third, and on any exception
(including a `strptime` failure) stores the sentinel `"--:--"` instead. -/
def update_prayer_times (todayRes tomorrowRes : Except Unit (List (String × String))) :
    List (String × String) :=
  let prayTimes := match todayRes with
    | .ok t => t
    | .error _ => ([] : List (String × String))
  let lastthird := match tomorrowRes with
    | .error _ => "--:--"
    | .ok tomorrowTimes =>
      match computeLastThird (lookupD prayTimes "sunset" "00:00")
          (lookupD tomorrowTimes "fajr" "00:00") with
      | some v => v
      | none => "--:--"
  setKey prayTimes "lastthird" lastthird

/-- Voice database entry, the JSON objects of `adhan_votes.json`. -/
structure Voice where
  name : String
  votes : Nat
  file : String
deriving DecidableEq

/-- The three hardcoded sample entries of `load_voice_database`. -/
def sampleVoices : List Voice :=
  [⟨"Mishary Rashid Alafasy", 250, "adhan_alafasy.mp3"⟩,
   ⟨"Abdul Basit", 300, "adhan_basit.mp3"⟩,
   ⟨"Saad Al-Ghamdi", 200, "adhan_ghamdi.mp3"⟩]

/-- Abstract state of the voice database file: absent, present but failing to
load (unreadable or invalid JSON), or present with a parsed voices list (a
file whose JSON lacks the "voices" key is `content []`, after
`data.get("voices", [])`). -/
inductive DbFile where
  | missing : DbFile
  | unreadable : DbFile
  | content : List Voice → DbFile
deriving DecidableEq

/-- Embedding of `load_voice_database`: returns the loaded voices and the file
state afterwards.  When the file exists, a load failure is caught and the
empty list returned; when it is missing, the sample database is written (the
write may itself fail, `writeOk`) and the sample returned either way. -/
def load_voice_database (writeOk : Bool) : DbFile → List Voice × DbFile
  | .missing => (sampleVoices, if writeOk then .content sampleVoices else .missing)
  | .unreadable => ([], .unreadable)
  | .content vs => (vs, .content vs)

/-- Embedding of `get_location`.  The single geolocation source
`geocoder.ip('me')` is abstracted as its outcome: `.error ()` when it raises,
`.ok none` when `g.latlng` is falsy, `.ok (some latlng)` otherwise.  The
fallback is the Mecca coordinate pair. -/
def get_location (ipResult : Except Unit (Option (ℚ × ℚ))) : ℚ × ℚ :=
  match ipResult with
  | .ok (some latlng) => latlng
  | .ok none => (21.3891, 39.8579)
  | .error _ => (21.3891, 39.8579)

/-- Embedding of Python's `s.startswith(pre)`. -/
def strStartsWith (s pre : String) : Bool :=
  pre.toList.isPrefixOf s.toList

/-- Characters of `selected` before the first occurrence of `" ("`, i.e.
Python's `selected.split(" (")[0]` (the whole string when the separator is
absent). -/
def voiceNameChars : List Char → List Char
  | [] => []
  | ' ' :: '(' :: _ => []
  | c :: rest => c :: voiceNameChars rest

/-- The database branch of `get_audio_file`: `None` when the dropdown shows a
`Custom:` entry, otherwise the file of the first database voice whose name
equals the dropdown text before `" ("`, or `None` when no name matches. -/
def selectedDbFile (selected : String) (db : List Voice) : Option String :=
  if strStartsWith selected "Custom:" then none
  else
    match db.find? (fun v => v.name.toList == voiceNameChars selected.toList) with
    | some v => some v.file
    | none => none

/-- Embedding of `AdhaanApp.get_audio_file`: a set, truthy (non-empty)
`manual_voice_file` wins; otherwise the dropdown value decides via
`selectedDbFile`. -/
def get_audio_file (manualVoiceFile : Option String) (selected : String)
    (db : List Voice) : Option String :=
  match manualVoiceFile with
  | some f => if f = "" then selectedDbFile selected db else some f
  | none => selectedDbFile selected db

/-- Every prayer played during a poll is a key of the table. -/
theorem monitorPlays_mem_keys {now : String} {audio : Option String}
    {enabled : String → Bool} {p : String} :
    ∀ (tbl : List (String × String)) (trig : String → Option String),
      p ∈ monitorPlays now audio enabled tbl trig → p ∈ tbl.map Prod.fst := by
  intro tbl
  induction tbl with
  | nil => intro trig h; simp [monitorPlays] at h
  | cons head rest ih =>
    intro trig h
    obtain ⟨q, t⟩ := head
    simp only [monitorPlays] at h
    simp only [List.map_cons, List.mem_cons]
    split at h
    · rcases List.mem_append.mp h with h | h
      · split at h
        · simp only [List.mem_singleton] at h
          exact Or.inl h
        · simp at h
      · exact Or.inr (ih _ h)
    · exact Or.inr (ih _ h)

/-- A prayer whose key does not occur in the table is never played. -/
theorem monitorPlays_not_mem_keys {now : String} {audio : Option String}
    {enabled : String → Bool} {p : String}
    (tbl : List (String × String)) (trig : String → Option String)
    (hk : p ∉ tbl.map Prod.fst) : p ∉ monitorPlays now audio enabled tbl trig :=
  fun h => hk (monitorPlays_mem_keys tbl trig h)

/-- Suppression: a prayer whose `triggered` entry already records the current
minute is not played during the poll (the recorded value `some now` is
preserved by every update the traversal makes). -/
theorem monitorPlays_suppressed {now : String} {audio : Option String}
    {enabled : String → Bool} {p : String} :
    ∀ (tbl : List (String × String)) (trig : String → Option String),
      trig p = some now → p ∉ monitorPlays now audio enabled tbl trig := by
  intro tbl
  induction tbl with
  | nil => intro trig _ h; simp [monitorPlays] at h
  | cons head rest ih =>
    intro trig htrig h
    obtain ⟨q, t⟩ := head
    simp only [monitorPlays] at h
    split at h
    · rename_i hc
      rcases List.mem_append.mp h with h | h
      · split at h
        · simp only [List.mem_singleton] at h
          subst h
          exact hc.2.2 htrig
        · simp at h
      · refine ih _ ?_ h
        by_cases e : p = q <;> simp [e, htrig]
    · exact ih _ htrig h

/-- A `triggered` entry recording the current minute survives the poll. -/
theorem monitorTrig_pres {now p : String} :
    ∀ (tbl : List (String × String)) (trig : String → Option String),
      trig p = some now → monitorTrig now tbl trig p = some now := by
  intro tbl
  induction tbl with
  | nil => intro trig h; simpa [monitorTrig] using h
  | cons head rest ih =>
    intro trig h
    obtain ⟨q, t⟩ := head
    simp only [monitorTrig]
    split
    · refine ih _ ?_
      by_cases e : p = q <;> simp [e, h]
    · exact ih _ h

/-- Recording: after a poll at minute `now`, every obligatory prayer whose
table entry equals `now` has `now` recorded in `triggered`, whatever the
enabled set and audio selection (neither occurs in `monitorTrig`). -/
theorem monitorTrig_records {now p : String} :
    ∀ (tbl : List (String × String)) (trig : String → Option String),
      p ∈ fivePrayers → (p, now) ∈ tbl → monitorTrig now tbl trig p = some now := by
  intro tbl
  induction tbl with
  | nil => intro trig _ h; simp at h
  | cons head rest ih =>
    intro trig h5 hmem
    obtain ⟨q, t⟩ := head
    rcases List.mem_cons.mp hmem with he | hmemr
    · injection he with h1 h2
      subst h1; subst h2
      simp only [monitorTrig]
      by_cases htr : trig p = some now
      · rw [if_neg (fun hc => hc.2.2 htr)]
        exact monitorTrig_pres rest trig htr
      · rw [if_pos ⟨h5, by simp, htr⟩]
        exact monitorTrig_pres rest _ (by simp)
    · simp only [monitorTrig]
      split
      · exact ih _ h5 hmemr
      · exact ih _ h5 hmemr

/-- With an audio file configured, an enabled, untriggered obligatory prayer
whose table entry equals the current minute is played exactly once during the
poll (table keys are unique, as for a Python dict). -/
theorem monitorPlays_count_one {now f : String} {enabled : String → Bool} {p : String} :
    ∀ (tbl : List (String × String)) (trig : String → Option String),
      (tbl.map Prod.fst).Nodup → p ∈ fivePrayers → (p, now) ∈ tbl →
      enabled p = true → trig p ≠ some now →
      (monitorPlays now (some f) enabled tbl trig).count p = 1 := by
  intro tbl
  induction tbl with
  | nil => intro trig _ _ h; simp at h
  | cons head rest ih =>
    intro trig hnd h5 hmem hen htr
    obtain ⟨q, t⟩ := head
    simp only [List.map_cons, List.nodup_cons] at hnd
    obtain ⟨hqk, hndr⟩ := hnd
    rcases List.mem_cons.mp hmem with he | hmemr
    · injection he with h1 h2
      subst h1; subst h2
      simp only [monitorPlays]
      rw [if_pos ⟨h5, by simp, htr⟩, if_pos ⟨hen, by simp⟩]
      rw [List.count_append]
      have h0 : p ∉ monitorPlays now (some f) enabled rest
          (fun r => if r = p then some now else trig r) :=
        monitorPlays_not_mem_keys rest _ hqk
      rw [List.count_eq_zero.mpr h0]
      simp
    · have hpk : p ∈ rest.map Prod.fst := List.mem_map.mpr ⟨(p, now), hmemr, rfl⟩
      have hpq : p ≠ q := fun e => hqk (e ▸ hpk)
      simp only [monitorPlays]
      split
      · rw [List.count_append]
        have hc1 : (if enabled q = true ∧ (Option.isSome (some f)) = true
            then [q] else []).count p = 0 := by
          apply List.count_eq_zero.mpr
          split
          · simp [hpq]
          · simp
        rw [hc1]
        have htr2 : (fun r => if r = q then some now else trig r) p ≠ some now := by
          simp [hpq]; exact htr
        rw [ih _ hndr h5 hmemr hen htr2]
      · exact ih _ hndr h5 hmemr hen htr

/-- With no audio file configured, a poll plays nothing at all. -/
theorem monitorPlays_no_audio {now : String} {enabled : String → Bool} :
    ∀ (tbl : List (String × String)) (trig : String → Option String),
      monitorPlays now none enabled tbl trig = [] := by
  intro tbl
  induction tbl with
  | nil => intro trig; simp [monitorPlays]
  | cons head rest ih =>
    intro trig
    obtain ⟨q, t⟩ := head
    simp only [monitorPlays]
    split
    · rw [if_neg (by simp)]
      simpa using ih _
    · exact ih _

/-- A disabled prayer is never played during a poll. -/
theorem monitorPlays_disabled {now : String} {audio : Option String}
    {enabled : String → Bool} {p : String} (hdis : enabled p = false) :
    ∀ (tbl : List (String × String)) (trig : String → Option String),
      p ∉ monitorPlays now audio enabled tbl trig := by
  intro tbl
  induction tbl with
  | nil => intro trig h; simp [monitorPlays] at h
  | cons head rest ih =>
    intro trig h
    obtain ⟨q, t⟩ := head
    simp only [monitorPlays] at h
    split at h
    · rcases List.mem_append.mp h with h | h
      · split at h
        · rename_i hb
          simp only [List.mem_singleton] at h
          subst h
          rw [hdis] at hb
          exact absurd hb.1 (by simp)
        · simp at h
      · exact ih _ h
    · exact ih _ h

/-- Firing: an enabled, untriggered obligatory prayer whose table entry equals
the current minute is played during the poll when an audio file is
configured. -/
theorem monitorPlays_fires {now f : String} {enabled : String → Bool} {p : String} :
    ∀ (tbl : List (String × String)) (trig : String → Option String),
      p ∈ fivePrayers → (p, now) ∈ tbl → enabled p = true → trig p ≠ some now →
      p ∈ monitorPlays now (some f) enabled tbl trig := by
  intro tbl
  induction tbl with
  | nil => intro trig _ h; simp at h
  | cons head rest ih =>
    intro trig h5 hmem hen htr
    obtain ⟨q, t⟩ := head
    rcases List.mem_cons.mp hmem with he | hmemr
    · injection he with h1 h2
      subst h1; subst h2
      simp only [monitorPlays]
      rw [if_pos ⟨h5, by simp, htr⟩, if_pos ⟨hen, by simp⟩]
      exact List.mem_append.mpr (Or.inl (by simp))
    · simp only [monitorPlays]
      split
      · by_cases e : p = q
        · subst e
          rw [if_pos ⟨hen, by simp⟩]
          exact List.mem_append.mpr (Or.inl (by simp))
        · refine List.mem_append.mpr (Or.inr ?_)
          refine ih _ h5 hmemr hen ?_
          simp [e]; exact htr
      · exact ih _ h5 hmemr hen htr

/-- A successful `strptime("%H:%M")` parse yields an hour at most 23 and a
minute at most 59. -/
theorem parseHHMM_bounds {s : String} {h m : Nat}
    (hp : parseHHMM s = some (h, m)) : h ≤ 23 ∧ m ≤ 59 := by
  unfold parseHHMM at hp
  split at hp
  · exact absurd hp (by simp)
  · split at hp
    · split at hp
      · rename_i hcond
        obtain ⟨h1, h2⟩ := Prod.mk.injEq _ _ _ _ ▸ Option.some.inj hp
        subst h1; subst h2
        exact hcond
      · exact absurd hp (by simp)
    · exact absurd hp (by simp)
    · exact absurd hp (by simp)

/-- C1 (amended: an audio file must be configured for playback to occur).
For a poll of the monitor at current minute `now` over a table with unique
keys: if obligatory prayer `p` is stored at minute `now`, is enabled, is not
yet recorded for `now` in `triggered`, and an audio file is configured, then
the poll invokes playback exactly once for `p`; and a subsequent poll in the
same minute with the table unchanged (whatever the enabled set and audio
selection then) does not play `p` again. -/
theorem prayer_monitor_once (now f : String) (audio₂ : Option String)
    (enabled enabled₂ : String → Bool) (tbl : List (String × String))
    (trig : String → Option String) (p : String)
    (hnd : (tbl.map Prod.fst).Nodup) (h5 : p ∈ fivePrayers) (hmem : (p, now) ∈ tbl)
    (hen : enabled p = true) (htr : trig p ≠ some now) :
    (monitorPlays now (some f) enabled tbl trig).count p = 1 ∧
      p ∉ monitorPlays now audio₂ enabled₂ tbl (monitorTrig now tbl trig) :=
  ⟨monitorPlays_count_one tbl trig hnd h5 hmem hen htr,
   monitorPlays_suppressed tbl _ (monitorTrig_records tbl trig h5 hmem)⟩

/-- Witness for `prayer_monitor_once` at a concrete poll. -/
theorem prayer_monitor_once_witness :
    ((([("fajr", "05:30")] : List (String × String)).map Prod.fst).Nodup ∧
      "fajr" ∈ fivePrayers ∧
      (("fajr", "05:30") ∈ ([("fajr", "05:30")] : List (String × String))) ∧
      (fun _ : String => true) "fajr" = true ∧
      ((fun _ : String => (none : Option String)) "fajr" ≠ some "05:30")) ∧
    ((monitorPlays "05:30" (some "adhan_basit.mp3") (fun _ => true)
        [("fajr", "05:30")] (fun _ => none)).count "fajr" = 1 ∧
      "fajr" ∉ monitorPlays "05:30" (some "adhan_basit.mp3") (fun _ => true)
        [("fajr", "05:30")]
        (monitorTrig "05:30" [("fajr", "05:30")] (fun _ => none))) :=
  ⟨⟨by decide, by decide, by decide, rfl, by decide⟩,
   prayer_monitor_once "05:30" "adhan_basit.mp3" (some "adhan_basit.mp3")
     (fun _ => true) (fun _ => true) [("fajr", "05:30")] (fun _ => none) "fajr"
     (by decide) (by decide) (by decide) rfl (by decide)⟩

/-- C1 counterexample to the claim as stated: at a poll where fajr's stored
minute equals the current minute, fajr is enabled and untriggered, but no
audio file is configured (`get_audio_file()` returned `None`), playback is
invoked zero times, not exactly once. -/
theorem prayer_monitor_once_cx :
    (fun _ : String => true) "fajr" = true ∧
      ((fun _ : String => (none : Option String)) "fajr" ≠ some "05:30") ∧
      monitorPlays "05:30" none (fun _ => true) [("fajr", "05:30")]
        (fun _ => none) = [] :=
  ⟨rfl, by decide, by decide⟩

/-- C4 counterexample: after fajr triggers at minute "05:30", the `triggered`
entry is never cleared; a later poll whose current minute is again "05:30"
(for example the same wall-clock minute on the next day) with the table
unchanged plays nothing — the claim's "invokes playback for p again" fails. -/
theorem triggered_persists_cx :
    monitorTrig "05:30" [("fajr", "05:30")] (fun _ => none) "fajr" = some "05:30" ∧
      monitorPlays "05:30" (some "adhan_basit.mp3") (fun _ => true)
        [("fajr", "05:30")]
        (monitorTrig "05:30" [("fajr", "05:30")] (fun _ => none)) = [] := by
  constructor
  · decide
  · decide

/-- C4 (amended): a `triggered` entry persists instead of being cleared when
the minute passes: after a poll at minute `now` in which obligatory prayer
`p` (stored at `now`) was processed, any later poll whose current minute is
again `now` with the table unchanged does not play `p`; `p` is played again
only at a different minute `now₂` at which its (possibly recomputed) table
entry then stands, it is enabled, and audio is configured. -/
theorem triggered_entry_persists (now now₂ f : String) (audio₂ : Option String)
    (enabled₂ enabled₃ : String → Bool)
    (tbl tbl₂ : List (String × String)) (trig : String → Option String) (p : String)
    (h5 : p ∈ fivePrayers) (hmem : (p, now) ∈ tbl)
    (hne : now₂ ≠ now) (hmem₂ : (p, now₂) ∈ tbl₂) (hen₃ : enabled₃ p = true) :
    p ∉ monitorPlays now audio₂ enabled₂ tbl (monitorTrig now tbl trig) ∧
      p ∈ monitorPlays now₂ (some f) enabled₃ tbl₂ (monitorTrig now tbl trig) := by
  have hrec := @monitorTrig_records now p tbl trig h5 hmem
  refine ⟨monitorPlays_suppressed tbl _ hrec, ?_⟩
  refine monitorPlays_fires tbl₂ _ h5 hmem₂ hen₃ ?_
  rw [hrec]
  exact fun hcon => hne (Option.some.inj hcon).symm

/-- Witness for `triggered_entry_persists` at concrete polls. -/
theorem triggered_entry_persists_witness :
    ("fajr" ∈ fivePrayers ∧
      (("fajr", "05:30") ∈ ([("fajr", "05:30")] : List (String × String))) ∧
      ("05:31" : String) ≠ "05:30" ∧
      (("fajr", "05:31") ∈ ([("fajr", "05:31")] : List (String × String))) ∧
      (fun _ : String => true) "fajr" = true) ∧
    ("fajr" ∉ monitorPlays "05:30" (some "adhan_basit.mp3") (fun _ => true)
        [("fajr", "05:30")]
        (monitorTrig "05:30" [("fajr", "05:30")] (fun _ => none)) ∧
      "fajr" ∈ monitorPlays "05:31" (some "adhan_basit.mp3") (fun _ => true)
        [("fajr", "05:31")]
        (monitorTrig "05:30" [("fajr", "05:30")] (fun _ => none))) :=
  ⟨⟨by decide, by decide, by decide, by decide, rfl⟩,
   triggered_entry_persists "05:30" "05:31" "adhan_basit.mp3"
     (some "adhan_basit.mp3") (fun _ => true) (fun _ => true)
     [("fajr", "05:30")] [("fajr", "05:31")] (fun _ => none) "fajr"
     (by decide) (by decide) (by decide) (by decide) rfl⟩

/-- C6: in a poll where obligatory prayer `p`'s stored minute equals the
current minute and `triggered` does not already record that minute, the
current minute is recorded into `triggered` for `p` — for every enabled set
and audio selection, since `monitorTrig` depends on neither (the assignment
`triggered[prayer] = now_str` sits outside the enabled/audio checks). -/
theorem trigger_recorded (now : String) (tbl : List (String × String))
    (trig : String → Option String) (p : String)
    (h5 : p ∈ fivePrayers) (hmem : (p, now) ∈ tbl) (_htr : trig p ≠ some now) :
    monitorTrig now tbl trig p = some now :=
  monitorTrig_records tbl trig h5 hmem

/-- Witness for `trigger_recorded` at a concrete poll (note even a poll whose
plays are empty — prayer disabled — records the trigger). -/
theorem trigger_recorded_witness :
    ("dhuhr" ∈ fivePrayers ∧
      (("dhuhr", "12:15") ∈ ([("dhuhr", "12:15")] : List (String × String))) ∧
      ((fun _ : String => (none : Option String)) "dhuhr" ≠ some "12:15")) ∧
    (monitorTrig "12:15" [("dhuhr", "12:15")] (fun _ => none) "dhuhr" = some "12:15" ∧
      monitorPlays "12:15" none (fun _ => false) [("dhuhr", "12:15")]
        (fun _ => none) = []) :=
  ⟨⟨by decide, by decide, by decide⟩,
   trigger_recorded "12:15" [("dhuhr", "12:15")] (fun _ => none) "dhuhr"
     (by decide) (by decide) (by decide), by decide⟩

/-- C7: a disabled obligatory prayer is never played during a poll, even when
its stored minute equals the current minute. -/
theorem disabled_no_playback (now : String) (audio : Option String)
    (enabled : String → Bool) (tbl : List (String × String))
    (trig : String → Option String) (p : String) (hdis : enabled p = false) :
    p ∉ monitorPlays now audio enabled tbl trig :=
  monitorPlays_disabled hdis tbl trig

/-- Witness for `disabled_no_playback`: isha disabled, its minute matching. -/
theorem disabled_no_playback_witness :
    (fun _ : String => false) "isha" = false ∧
      "isha" ∉ monitorPlays "20:00" (some "adhan_basit.mp3") (fun _ => false)
        [("isha", "20:00")] (fun _ => none) :=
  ⟨rfl,
   disabled_no_playback "20:00" (some "adhan_basit.mp3") (fun _ => false)
     [("isha", "20:00")] (fun _ => none) "isha" rfl⟩

/-- C2: whenever today's sunset string and tomorrow's Fajr string both parse
as HH:MM, the derived "lastthird" equals sunset + (2/3)·(next-day Fajr −
sunset) rendered as an HH:MM string; the computed instant (the code's
`last_third_dt`, in seconds after today's midnight) lies strictly between
today's sunset and tomorrow's Fajr; and sunset 18:00 with next-day Fajr 05:00
yields "01:20". -/
theorem last_third_spec (sStr fStr : String) (sh sm fh fm : Nat)
    (hs : parseHHMM sStr = some (sh, sm)) (hf : parseHHMM fStr = some (fh, fm)) :
    computeLastThird sStr fStr = some (renderClock (lastThirdAbsSec sh sm fh fm)) ∧
      sunsetAbsSec sh sm < lastThirdAbsSec sh sm fh fm ∧
      lastThirdAbsSec sh sm fh fm < nextFajrAbsSec fh fm ∧
      computeLastThird "18:00" "05:00" = some "01:20" := by
  obtain ⟨hsh, hsm⟩ := parseHHMM_bounds hs
  refine ⟨?_, ?_, ?_, by decide⟩
  · unfold computeLastThird
    rw [hs, hf]
  · unfold lastThirdAbsSec sunsetAbsSec nextFajrAbsSec
    omega
  · unfold lastThirdAbsSec sunsetAbsSec nextFajrAbsSec
    omega

/-- Witness for `last_third_spec` at sunset "18:00", next-day Fajr "05:00". -/
theorem last_third_spec_witness :
    (parseHHMM "18:00" = some (18, 0) ∧ parseHHMM "05:00" = some (5, 0)) ∧
    (computeLastThird "18:00" "05:00" = some (renderClock (lastThirdAbsSec 18 0 5 0)) ∧
      sunsetAbsSec 18 0 < lastThirdAbsSec 18 0 5 0 ∧
      lastThirdAbsSec 18 0 5 0 < nextFajrAbsSec 5 0 ∧
      computeLastThird "18:00" "05:00" = some "01:20") :=
  ⟨⟨by decide, by decide⟩,
   last_third_spec "18:00" "05:00" 18 0 5 0 (by decide) (by decide)⟩

/-- C3 counterexample: when today's `getTimes` raises but tomorrow's
succeeds (here returning fajr "05:00"), the resulting table is not the
claimed `{"lastthird": "--:--"}` — the second stage runs on the default
sunset "00:00" of the now-empty table and stores a numerically computed
last third, "19:20". -/
theorem update_failure_policy_cx :
    update_prayer_times (Except.error ()) (Except.ok [("fajr", "05:00")]) =
        [("lastthird", "19:20")] ∧
      update_prayer_times (Except.error ()) (Except.ok [("fajr", "05:00")]) ≠
        [("lastthird", "--:--")] := by
  constructor
  · decide
  · decide

/-- C3 (amended): only when both stages fail is the resulting table exactly
`{"lastthird": "--:--"}`; when only today's calculation fails but tomorrow's
succeeds, the otherwise-empty table carries a numerically computed lastthird
(from the default sunset "00:00"); when only the lastthird stage fails,
today's times are kept and lastthird is the sentinel — the failure policy is
per-stage, not a full replace. -/
theorem update_failure_policy_amended :
    update_prayer_times (Except.error ()) (Except.error ()) =
        [("lastthird", "--:--")] ∧
      update_prayer_times (Except.error ()) (Except.ok [("fajr", "05:00")]) =
        [("lastthird", "19:20")] ∧
      update_prayer_times (Except.ok [("sunset", "18:00")]) (Except.error ()) =
        [("sunset", "18:00"), ("lastthird", "--:--")] := by
  refine ⟨by decide, by decide, by decide⟩

/-- C5 counterexample: when the database file exists but is unreadable
(`json.load` raises), `load_voice_database` returns the empty list and does
not create the sample database — not the claimed 3 sample entries. -/
theorem load_voice_database_cx :
    (load_voice_database true DbFile.unreadable).1 = [] ∧
      (load_voice_database true DbFile.unreadable).1 ≠ sampleVoices ∧
      (load_voice_database true DbFile.unreadable).2 = DbFile.unreadable := by
  refine ⟨by decide, by decide, by decide⟩

/-- C5 (amended): only a missing database file causes the 3-entry sample
database (votes 250, 300, 200) to be created and returned, and subsequent
loads then return exactly those 3 entries; an existing but unreadable file
instead yields the empty list and is left as is. -/
theorem load_voice_database_amended :
    load_voice_database true DbFile.missing = (sampleVoices, DbFile.content sampleVoices) ∧
      (load_voice_database true (DbFile.content sampleVoices)).1 = sampleVoices ∧
      (load_voice_database false (DbFile.content sampleVoices)).1 = sampleVoices ∧
      sampleVoices.map Voice.votes = [250, 300, 200] ∧
      sampleVoices.map Voice.name =
        ["Mishary Rashid Alafasy", "Abdul Basit", "Saad Al-Ghamdi"] ∧
      (load_voice_database true DbFile.unreadable).1 = [] := by
  refine ⟨by decide, by decide, by decide, by decide, by decide, by decide⟩

/-- C8: the 24-hour to 12-hour conversion maps "05:30" to "05:30 AM" and
"18:00" to "06:00 PM", and returns any string the `strptime("%H:%M")` parse
rejects unchanged. -/
theorem convert_to_12h_spec :
    convert_to_12h "05:30" = "05:30 AM" ∧
      convert_to_12h "18:00" = "06:00 PM" ∧
      ∀ s : String, parseHHMM s = none → convert_to_12h s = s := by
  refine ⟨by decide, by decide, ?_⟩
  intro s hs
  unfold convert_to_12h
  rw [hs]

/-- Witness for `convert_to_12h_spec` on the invalid input "24:00". -/
theorem convert_to_12h_spec_witness :
    parseHHMM "24:00" = none ∧ convert_to_12h "24:00" = "24:00" :=
  ⟨by decide, convert_to_12h_spec.2.2 "24:00" (by decide)⟩

/-- C9: whenever the IP geolocation source yields no usable result — it
raises, or returns a falsy `latlng` — `get_location` returns exactly the
fallback coordinates (21.3891, 39.8579); this exhausts all sources of this
variant, whose only source before the fallback is `geocoder.ip('me')`. -/
theorem get_location_fallback (r : Except Unit (Option (ℚ × ℚ)))
    (h : ∀ p : ℚ × ℚ, r ≠ Except.ok (some p)) :
    get_location r = (21.3891, 39.8579) := by
  match r with
  | .error u => rfl
  | .ok none => rfl
  | .ok (some p) => exact absurd rfl (h p)

/-- Witness for `get_location_fallback` when the geolocation call raises. -/
theorem get_location_fallback_witness :
    (∀ p : ℚ × ℚ,
        (Except.error () : Except Unit (Option (ℚ × ℚ))) ≠ Except.ok (some p)) ∧
      get_location (Except.error ()) = (21.3891, 39.8579) :=
  ⟨fun _ hc => Except.noConfusion hc,
   get_location_fallback (Except.error ()) (fun _ hc => Except.noConfusion hc)⟩

/-- C10: when no manual voice file is stored (for example after the custom
file dialog was cancelled, which resets it to `None`) while the dropdown
still shows a `Custom:` entry, `get_audio_file` returns `None` without
falling back to any database voice, so a monitor poll armed with that result
plays nothing at all — scheduled playback is silently skipped. -/
theorem custom_voice_no_fallback (selected : String) (db : List Voice)
    (now : String) (enabled : String → Bool) (tbl : List (String × String))
    (trig : String → Option String)
    (hsel : strStartsWith selected "Custom:" = true) :
    get_audio_file none selected db = none ∧
      monitorPlays now (get_audio_file none selected db) enabled tbl trig = [] := by
  have h1 : get_audio_file none selected db = none := by
    unfold get_audio_file selectedDbFile
    rw [if_pos hsel]
  exact ⟨h1, by rw [h1]; exact monitorPlays_no_audio tbl trig⟩

/-- Witness for `custom_voice_no_fallback`: the dropdown shows a cancelled
custom entry while the three database voices exist, at fajr's very minute. -/
theorem custom_voice_no_fallback_witness :
    strStartsWith "Custom: my_adhan.mp3" "Custom:" = true ∧
      (get_audio_file none "Custom: my_adhan.mp3" sampleVoices = none ∧
        monitorPlays "05:30" (get_audio_file none "Custom: my_adhan.mp3" sampleVoices)
          (fun _ => true) [("fajr", "05:30")] (fun _ => none) = []) :=
  ⟨by decide,
   custom_voice_no_fallback "Custom: my_adhan.mp3" sampleVoices "05:30"
     (fun _ => true) [("fajr", "05:30")] (fun _ => none) (by decide)⟩
